import Mathlib

/-!
Shallow embedding of `src/telegram_compression_bot.py`.

Conventions of the embedding:
- `active_tasks : Dict[int, Dict[str, Any]]` is modelled as an association
  list `List (Nat × TaskInfo)`; `lookupTask`, `insertTask` and `eraseTask`
  give it Python-dict semantics (assignment replaces, `del` removes,
  membership is a successful lookup).
- `context.user_data` is modelled by the structure `UserData` with the three
  keys the source reads or writes (`default_quality`, `is_premium`,
  `pending_video`), each `Option`al or defaulted exactly as the
  corresponding `.get(key, default)` call supplies it.
- Handlers become pure functions from their inputs (registry, user data,
  message payload) to a symbolic reply plus the updated state.  Message
  text, markdown and keyboards are not modelled; a reply constructor
  carries the data that the corresponding `reply_text` / `edit_message_text`
  call interpolates.
- The async pipeline `process_compression` becomes a function of an
  environment `Env` that decides the outcome of every external call
  (Telegram edits, the download, the ffmpeg encode) and records at which
  stage boundary a concurrent `/cancel` flips the `canceled` flag.  The
  body of the Python `try:` is `run_body`; the `except`/`finally` clauses
  are applied on top of its result in `process_compression`.  File
  existence of the two scratch paths is tracked by two booleans; `os.remove`
  on an existing path always succeeds in this model (deletion failures are
  only logged by the source and are not modelled).
-/

/-- The video reference saved under `context.user_data["pending_video"]`
(lines 243-248 of the source). -/
structure VideoInfo where
  file_id : Nat
  file_name : String
  file_size : Nat
  mime_type : String
deriving DecidableEq, Repr

/-- The per-user entry of `active_tasks` created by
`handle_compression_callback` (lines 276-282). -/
structure TaskInfo where
  video_info : VideoInfo
  quality : String
  status_message_id : Nat
  start_time : Nat
  canceled : Bool
deriving DecidableEq, Repr

/-- The keys of `context.user_data` that the source reads or writes. -/
structure UserData where
  default_quality : Option String := none
  is_premium : Bool := false
  pending_video : Option VideoInfo := none
deriving DecidableEq, Repr

/-- `active_tasks[user_id]` (raising lookups are modelled by `Option`). -/
def lookupTask : List (Nat × TaskInfo) → Nat → Option TaskInfo
  | [], _ => none
  | (k, v) :: rest, key => if k = key then some v else lookupTask rest key

/-- `del active_tasks[user_id]` / removal of a key (no-op when absent). -/
def eraseTask : List (Nat × TaskInfo) → Nat → List (Nat × TaskInfo)
  | [], _ => []
  | (k, v) :: rest, key =>
      if k = key then eraseTask rest key else (k, v) :: eraseTask rest key

/-- `active_tasks[user_id] = task` (dict assignment replaces). -/
def insertTask (l : List (Nat × TaskInfo)) (key : Nat) (v : TaskInfo) :
    List (Nat × TaskInfo) :=
  (key, v) :: eraseTask l key

/-- `MAX_FILE_SIZE = 50 * 1024 * 1024` (line 22). -/
def MAX_FILE_SIZE : Nat := 50 * 1024 * 1024

/-- `PREMIUM_MAX_FILE_SIZE = 2 * 1024 * 1024 * 1024` (line 23). -/
def PREMIUM_MAX_FILE_SIZE : Nat := 2 * 1024 * 1024 * 1024

/-- One entry of `COMPRESSION_PRESETS` (lines 31-47). -/
structure Preset where
  crf : Nat
  speed : String
  description : String
deriving DecidableEq, Repr

/-- `COMPRESSION_PRESETS` as a partial map; `none` models the `KeyError`
raised by `COMPRESSION_PRESETS[quality]` on an unknown key. -/
def COMPRESSION_PRESETS (quality : String) : Option Preset :=
  if quality = "low" then some ⟨28, "veryfast", "Small file size, lower quality"⟩
  else if quality = "medium" then some ⟨23, "medium", "Balanced file size and quality"⟩
  else if quality = "high" then some ⟨18, "slow", "Larger file size, higher quality"⟩
  else none

/-- Reply of `settings_command` (lines 129-149): the default quality that
the settings message displays, `context.user_data.get("default_quality",
"medium")`. -/
def settings_command (ud : UserData) : String :=
  (ud.default_quality).getD "medium"

/-- `handle_settings_callback` (lines 152-167): stores the chosen quality
under `default_quality` and confirms it.  The argument is `query.data`
with the `set_default_` head already removed as on line 158. -/
def handle_settings_callback (ud : UserData) (quality : String) :
    UserData × String :=
  ({ ud with default_quality := some quality }, quality)

/-- Reply of `cancel_command` (lines 170-185). -/
inductive CancelReply
  | canceling
  | noActiveTask
deriving DecidableEq, Repr

/-- `cancel_command` (lines 170-185): if the user has an entry in
`active_tasks`, set its `canceled` flag; otherwise report that there is
nothing to cancel. -/
def cancel_command (tasks : List (Nat × TaskInfo)) (user_id : Nat) :
    CancelReply × List (Nat × TaskInfo) :=
  match lookupTask tasks user_id with
  | some t => (.canceling, insertTask tasks user_id { t with canceled := true })
  | none => (.noActiveTask, tasks)

/-- Reply of `handle_video` (lines 188-248). -/
inductive VideoReply
  | alreadyActive
  | noVideo
  | tooLarge (size_limit : Nat) (is_premium : Bool)
  | promptQuality (file_size : Nat) (default_quality : String)
deriving DecidableEq, Repr

/-- `handle_video` (lines 188-248): reject when the user already has an
entry in `active_tasks`; reject when the declared size exceeds the tier
limit; otherwise show the quality keyboard (with the stored or fallback
default quality) and save the video reference under `pending_video`.
No task entry and no file is created here. -/
def handle_video (tasks : List (Nat × TaskInfo)) (ud : UserData)
    (user_id : Nat) (video : Option VideoInfo) :
    VideoReply × List (Nat × TaskInfo) × UserData :=
  if (lookupTask tasks user_id).isSome then
    (.alreadyActive, tasks, ud)
  else
    match video with
    | none => (.noVideo, tasks, ud)
    | some v =>
      let is_premium := ud.is_premium
      let size_limit := if is_premium then PREMIUM_MAX_FILE_SIZE else MAX_FILE_SIZE
      if size_limit < v.file_size then
        (.tooLarge size_limit is_premium, tasks, ud)
      else
        let default_quality := (ud.default_quality).getD "medium"
        (.promptQuality v.file_size default_quality, tasks,
          { ud with pending_video := some v })

/-- Reply of `handle_compression_callback` (lines 251-285). -/
inductive CallbackReply
  | noPendingVideo
  | started (quality : String)
deriving DecidableEq, Repr

/-- `handle_compression_callback` (lines 251-285): read `pending_video`
(left in place, never cleared); if present, unconditionally assign a fresh
task entry to `active_tasks[user_id]` — the source performs no
already-active check and no preset validation here — and schedule
`process_compression`.  The `quality` argument is `query.data` with the
`compress_` head already removed as on line 257; `status_message_id` and
`now` stand for `status_message.message_id` and `time.time()`. -/
def handle_compression_callback (tasks : List (Nat × TaskInfo))
    (ud : UserData) (user_id : Nat) (quality : String)
    (status_message_id now : Nat) :
    CallbackReply × List (Nat × TaskInfo) × UserData :=
  match ud.pending_video with
  | none => (.noPendingVideo, tasks, ud)
  | some video_info =>
      let task : TaskInfo :=
        { video_info := video_info, quality := quality,
          status_message_id := status_message_id, start_time := now,
          canceled := false }
      (.started quality, insertTask tasks user_id task, ud)

/-- `output_size / file_size` as Python float division: `none` models the
`ZeroDivisionError` raised when the denominator is zero.  Exact rational
arithmetic stands in for Python floats. -/
def py_div (a b : ℚ) : Option ℚ :=
  if b = 0 then none else some (a / b)

/-- `size_reduction = 100 - (output_size / video_info["file_size"] * 100)`
(line 365). -/
def size_reduction_calc (output_size file_size : Nat) : Option ℚ :=
  (py_div (output_size : ℚ) (file_size : ℚ)).map (fun q => 100 - q * 100)

/-- Environment of one `process_compression` run: the outcome of every
external call the pipeline makes (`true` = the awaited call returns
normally, `false` = it raises), what the encoder leaves behind on failure,
the size `os.path.getsize` reports for the produced output, and at which
stage boundary a concurrent `/cancel` (which only flips the stored
`canceled` flag) becomes visible: `cancel_during_download` means the flag
turns true between task creation and the first check on line 317,
`cancel_during_encode` between that check and the second one on line 349.
The flag is monotonic, so the second check also sees the first window. -/
structure Env where
  edit_downloading_ok : Bool
  get_file_ok : Bool
  download_ok : Bool
  edit_compressing_ok : Bool
  encode_ok : Bool
  encode_failure_output : Bool
  edit_canceled_ok : Bool
  edit_uploading_ok : Bool
  send_video_ok : Bool
  edit_completed_ok : Bool
  edit_error_ok : Bool
  cancel_during_download : Bool
  cancel_during_encode : Bool
  output_size : Nat
deriving DecidableEq, Repr

/-- How the `try:` body of `process_compression` ends: falling off the end
(line 404), returning from one of the two cancellation branches (lines 325
and 361), or raising into the `except` clause. -/
inductive BodyExit
  | normal
  | canceledReturn
  | exn
deriving DecidableEq, Repr

/-- State when the `try:` body of `process_compression` ends, before the
`finally:` clause runs: the registry, whether each scratch file exists,
and which external effects took place. -/
structure BodyResult where
  exit : BodyExit
  tasks : List (Nat × TaskInfo)
  input_exists : Bool := false
  output_exists : Bool := false
  download_performed : Bool := false
  encode_performed : Bool := false
  video_delivered : Bool := false
deriving DecidableEq, Repr

/-- The `try:` body of `process_compression` (lines 290-404), traced
branch by branch:
`active_tasks[user_id]` lookup (291), the Downloading status edit (297),
`get_file` (307), `download_to_drive` (314), the first cancellation check
(317, which removes the input file, edits the message, deletes the entry
and returns), the Compressing status edit (328, whose text already indexes
`COMPRESSION_PRESETS[quality]` and hence raises `KeyError` on an unknown
key), the preset lookup (339), the executor-dispatched encode (343), the
second cancellation check (349, removing both files), `getsize` and the
size-reduction computation (364-365), the Uploading edit (368),
`send_video` (380) and the Completed edit (394).  Raising steps jump to
`.exn`. -/
def run_body (env : Env) (tasks0 : List (Nat × TaskInfo)) (user_id : Nat) :
    BodyResult :=
  match lookupTask tasks0 user_id with
  | none => { exit := .exn, tasks := tasks0 }
  | some task_info =>
    if !env.edit_downloading_ok then { exit := .exn, tasks := tasks0 }
    else if !env.get_file_ok then { exit := .exn, tasks := tasks0 }
    else if !env.download_ok then { exit := .exn, tasks := tasks0 }
    else
      match lookupTask tasks0 user_id with
      | none =>
          { exit := .exn, tasks := tasks0, input_exists := true,
            download_performed := true }
      | some t1 =>
        if t1.canceled || env.cancel_during_download then
          if !env.edit_canceled_ok then
            { exit := .exn, tasks := tasks0, input_exists := false,
              download_performed := true }
          else
            { exit := .canceledReturn, tasks := eraseTask tasks0 user_id,
              input_exists := false, download_performed := true }
        else
          match COMPRESSION_PRESETS task_info.quality with
          | none =>
              { exit := .exn, tasks := tasks0, input_exists := true,
                download_performed := true }
          | some _preset =>
            if !env.edit_compressing_ok then
              { exit := .exn, tasks := tasks0, input_exists := true,
                download_performed := true }
            else if !env.encode_ok then
              { exit := .exn, tasks := tasks0, input_exists := true,
                output_exists := env.encode_failure_output,
                download_performed := true, encode_performed := true }
            else
              match lookupTask tasks0 user_id with
              | none =>
                  { exit := .exn, tasks := tasks0, input_exists := true,
                    output_exists := true, download_performed := true,
                    encode_performed := true }
              | some t2 =>
                if t2.canceled || env.cancel_during_download
                    || env.cancel_during_encode then
                  if !env.edit_canceled_ok then
                    { exit := .exn, tasks := tasks0, input_exists := false,
                      output_exists := false, download_performed := true,
                      encode_performed := true }
                  else
                    { exit := .canceledReturn,
                      tasks := eraseTask tasks0 user_id,
                      input_exists := false, output_exists := false,
                      download_performed := true, encode_performed := true }
                else
                  match size_reduction_calc env.output_size
                      task_info.video_info.file_size with
                  | none =>
                      { exit := .exn, tasks := tasks0, input_exists := true,
                        output_exists := true, download_performed := true,
                        encode_performed := true }
                  | some _sr =>
                    if !env.edit_uploading_ok then
                      { exit := .exn, tasks := tasks0, input_exists := true,
                        output_exists := true, download_performed := true,
                        encode_performed := true }
                    else if !env.send_video_ok then
                      { exit := .exn, tasks := tasks0, input_exists := true,
                        output_exists := true, download_performed := true,
                        encode_performed := true }
                    else if !env.edit_completed_ok then
                      { exit := .exn, tasks := tasks0, input_exists := true,
                        output_exists := true, download_performed := true,
                        encode_performed := true, video_delivered := true }
                    else
                      { exit := .normal, tasks := tasks0,
                        input_exists := true, output_exists := true,
                        download_performed := true, encode_performed := true,
                        video_delivered := true }

/-- Terminal outcome of one pipeline run: which final message path the run
took (the Completed edit, a Canceled edit, or the error report of the
`except` clause). -/
inductive Outcome
  | completed
  | canceled
  | failed
deriving DecidableEq, Repr

/-- `if os.path.exists(p): os.remove(p)` of the `finally:` clause
(lines 420-422); removal of an existing path succeeds in this model. -/
def os_remove_if_exists (present : Bool) : Bool :=
  if present then false else present

/-- Observable result of a whole `process_compression` run, after the
`except` and `finally` clauses.  `error_report_attempted` records that the
error edit of the `except` clause (line 409) was reached; whether that
edit itself succeeds (`env.edit_error_ok`) is swallowed by the inner
`except Exception: pass` (lines 414-415) and therefore cannot influence
any other field. -/
structure RunResult where
  outcome : Outcome
  tasks : List (Nat × TaskInfo)
  input_exists : Bool
  output_exists : Bool
  download_performed : Bool
  encode_performed : Bool
  video_delivered : Bool
  error_report_attempted : Bool
deriving DecidableEq, Repr

/-- `process_compression` (lines 288-428): run the `try:` body, let the
`except` clause attempt (and swallow the failure of) the error report when
the body raised, then run the `finally:` clause, which removes each still
existing scratch file and deletes the user's registry entry when present. -/
def process_compression (env : Env) (tasks0 : List (Nat × TaskInfo))
    (user_id : Nat) : RunResult :=
  let b := run_body env tasks0 user_id
  { outcome :=
      match b.exit with
      | .normal => .completed
      | .canceledReturn => .canceled
      | .exn => .failed
    tasks := eraseTask b.tasks user_id
    input_exists := os_remove_if_exists b.input_exists
    output_exists := os_remove_if_exists b.output_exists
    download_performed := b.download_performed
    encode_performed := b.encode_performed
    video_delivered := b.video_delivered
    error_report_attempted :=
      match b.exit with
      | .exn => true
      | _ => false }

/-- An environment where every external call succeeds and no cancellation
arrives; concrete runs below perturb single fields of it. -/
def envAllOk : Env :=
  { edit_downloading_ok := true, get_file_ok := true, download_ok := true,
    edit_compressing_ok := true, encode_ok := true,
    encode_failure_output := false, edit_canceled_ok := true,
    edit_uploading_ok := true, send_video_ok := true,
    edit_completed_ok := true, edit_error_ok := true,
    cancel_during_download := false, cancel_during_encode := false,
    output_size := 500 }

/-- Looking a key up after erasing it finds nothing. -/
theorem lookupTask_eraseTask (l : List (Nat × TaskInfo)) (k : Nat) :
    lookupTask (eraseTask l k) k = none := by
  induction l with
  | nil => rfl
  | cons p rest ih =>
      obtain ⟨a, v⟩ := p
      by_cases h : a = k
      · simpa [eraseTask, h] using ih
      · simp [eraseTask, lookupTask, h, ih]

/-- Looking a key up right after assigning it returns the new value. -/
theorem lookupTask_insertTask (l : List (Nat × TaskInfo)) (k : Nat)
    (v : TaskInfo) : lookupTask (insertTask l k v) k = some v := by
  simp [insertTask, lookupTask]

/-- The remove-if-present of the cleanup clause always leaves the path
absent. -/
theorem os_remove_if_exists_eq_false (b : Bool) :
    os_remove_if_exists b = false := by
  cases b <;> rfl

/-- C2 — Terminal cleanup: whatever the environment does (success,
cancellation at either checkpoint, a raising download, encode, upload or
status edit), after `process_compression` returns, the input path and the
output path are absent and the registry holds no entry for the user. -/
theorem C2_terminal_cleanup (env : Env) (tasks : List (Nat × TaskInfo))
    (user_id : Nat) :
    (process_compression env tasks user_id).input_exists = false ∧
    (process_compression env tasks user_id).output_exists = false ∧
    lookupTask (process_compression env tasks user_id).tasks user_id = none := by
  refine ⟨?_, ?_, ?_⟩ <;>
    simp [process_compression, os_remove_if_exists_eq_false,
      lookupTask_eraseTask]

/-- C7 — Size gate: for a user with no active task, a video whose declared
size exceeds the tier limit is answered with the too-large reply and
neither the registry nor the user data changes (`handle_video` creates no
files at all); a video at or under the limit passes the size check and is
answered with the quality prompt. -/
theorem C7_size_gate (tasks : List (Nat × TaskInfo)) (ud : UserData)
    (user_id : Nat) (v : VideoInfo)
    (hfree : lookupTask tasks user_id = none) :
    ((if ud.is_premium then PREMIUM_MAX_FILE_SIZE else MAX_FILE_SIZE) <
        v.file_size →
      handle_video tasks ud user_id (some v) =
        (.tooLarge (if ud.is_premium then PREMIUM_MAX_FILE_SIZE
            else MAX_FILE_SIZE) ud.is_premium, tasks, ud)) ∧
    (v.file_size ≤
        (if ud.is_premium then PREMIUM_MAX_FILE_SIZE else MAX_FILE_SIZE) →
      handle_video tasks ud user_id (some v) =
        (.promptQuality v.file_size ((ud.default_quality).getD "medium"),
          tasks, { ud with pending_video := some v })) := by
  constructor
  · intro h
    simp [handle_video, hfree, h]
  · intro h
    simp [handle_video, hfree, not_lt.mpr h]

theorem C7_size_gate_witness :
    handle_video [] {} 7 (some ⟨1, "a.mp4", 60 * 1024 * 1024, "video/mp4"⟩) =
      (.tooLarge MAX_FILE_SIZE false, [], {}) ∧
    handle_video [] {} 7 (some ⟨2, "b.mp4", 1000, "video/mp4"⟩) =
      (.promptQuality 1000 "medium", [],
        { pending_video := some ⟨2, "b.mp4", 1000, "video/mp4"⟩ }) := by
  constructor
  · exact (C7_size_gate [] {} 7 ⟨1, "a.mp4", 60 * 1024 * 1024, "video/mp4"⟩
      rfl).1 (by decide)
  · exact (C7_size_gate [] {} 7 ⟨2, "b.mp4", 1000, "video/mp4"⟩
      rfl).2 (by decide)

/-- C8 — Size-reduction arithmetic: with a positive original size the
size-reduction expression of line 365 evaluates without a division error,
and when the output is larger than the input the reported reduction is
negative. -/
theorem C8_size_reduction_defined (output_size file_size : Nat)
    (h : 0 < file_size) :
    ∃ r : ℚ, size_reduction_calc output_size file_size = some r ∧
      (file_size < output_size → r < 0) := by
  have h0 : (0 : ℚ) < (file_size : ℚ) := by exact_mod_cast h
  refine ⟨100 - (output_size : ℚ) / (file_size : ℚ) * 100, ?_, ?_⟩
  · simp [size_reduction_calc, py_div, h0.ne']
  · intro hlt
    have h1 : (file_size : ℚ) < (output_size : ℚ) := by exact_mod_cast hlt
    have h2 : (1 : ℚ) < (output_size : ℚ) / (file_size : ℚ) :=
      (one_lt_div h0).mpr h1
    linarith

theorem C8_size_reduction_defined_witness :
    0 < 50 ∧ ∃ r : ℚ, size_reduction_calc 60 50 = some r ∧
      (50 < 60 → r < 0) :=
  ⟨by decide, C8_size_reduction_defined 60 50 (by decide)⟩

/-- C9 — Pending video persists: starting a compression from the stored
`pending_video` leaves the user data (and the stored reference) unchanged,
and pressing a quality button a second time, without any new video having
been sent, again starts a job from the very same stored reference; the
settings callback also leaves the reference in place. -/
theorem C9_pending_video_persists (tasks : List (Nat × TaskInfo))
    (ud : UserData) (user_id : Nat) (v : VideoInfo)
    (q1 q2 : String) (m1 n1 m2 n2 : Nat)
    (h : ud.pending_video = some v) :
    (handle_compression_callback tasks ud user_id q1 m1 n1).1 =
      .started q1 ∧
    (handle_compression_callback tasks ud user_id q1 m1 n1).2.2 = ud ∧
    lookupTask (handle_compression_callback tasks ud user_id q1 m1 n1).2.1
      user_id = some ⟨v, q1, m1, n1, false⟩ ∧
    (handle_settings_callback ud q2).1.pending_video = some v ∧
    (handle_compression_callback
        (handle_compression_callback tasks ud user_id q1 m1 n1).2.1
        (handle_compression_callback tasks ud user_id q1 m1 n1).2.2
        user_id q2 m2 n2).1 = .started q2 ∧
    lookupTask (handle_compression_callback
        (handle_compression_callback tasks ud user_id q1 m1 n1).2.1
        (handle_compression_callback tasks ud user_id q1 m1 n1).2.2
        user_id q2 m2 n2).2.1 user_id = some ⟨v, q2, m2, n2, false⟩ := by
  simp [handle_compression_callback, handle_settings_callback, h,
    insertTask, lookupTask]

theorem C9_pending_video_persists_witness :
    (handle_compression_callback []
        { pending_video := some ⟨2, "b.mp4", 1000, "video/mp4"⟩ }
        7 "medium" 10 100).1 = .started "medium" ∧
    (handle_compression_callback []
        { pending_video := some ⟨2, "b.mp4", 1000, "video/mp4"⟩ }
        7 "medium" 10 100).2.2 =
      { pending_video := some ⟨2, "b.mp4", 1000, "video/mp4"⟩ } ∧
    lookupTask (handle_compression_callback []
        { pending_video := some ⟨2, "b.mp4", 1000, "video/mp4"⟩ }
        7 "medium" 10 100).2.1 7 =
      some ⟨⟨2, "b.mp4", 1000, "video/mp4"⟩, "medium", 10, 100, false⟩ ∧
    (handle_settings_callback
        { pending_video := some ⟨2, "b.mp4", 1000, "video/mp4"⟩ }
        "high").1.pending_video = some ⟨2, "b.mp4", 1000, "video/mp4"⟩ ∧
    (handle_compression_callback
        (handle_compression_callback []
          { pending_video := some ⟨2, "b.mp4", 1000, "video/mp4"⟩ }
          7 "medium" 10 100).2.1
        (handle_compression_callback []
          { pending_video := some ⟨2, "b.mp4", 1000, "video/mp4"⟩ }
          7 "medium" 10 100).2.2
        7 "high" 11 200).1 = .started "high" ∧
    lookupTask (handle_compression_callback
        (handle_compression_callback []
          { pending_video := some ⟨2, "b.mp4", 1000, "video/mp4"⟩ }
          7 "medium" 10 100).2.1
        (handle_compression_callback []
          { pending_video := some ⟨2, "b.mp4", 1000, "video/mp4"⟩ }
          7 "medium" 10 100).2.2
        7 "high" 11 200).2.1 7 =
      some ⟨⟨2, "b.mp4", 1000, "video/mp4"⟩, "high", 11, 200, false⟩ :=
  C9_pending_video_persists [] _ 7 _ "medium" "high" 10 100 11 200 rfl

/-- C10 — Default quality fallback: for a user who has never chosen a
default quality, the settings display and the video-received prompt both
use "medium". -/
theorem C10_default_quality_fallback (tasks : List (Nat × TaskInfo))
    (ud : UserData) (user_id : Nat) (v : VideoInfo)
    (hq : ud.default_quality = none)
    (hfree : lookupTask tasks user_id = none)
    (hsize : v.file_size ≤
      (if ud.is_premium then PREMIUM_MAX_FILE_SIZE else MAX_FILE_SIZE)) :
    settings_command ud = "medium" ∧
    (handle_video tasks ud user_id (some v)).1 =
      .promptQuality v.file_size "medium" := by
  constructor
  · simp [settings_command, hq]
  · simp [handle_video, hfree, hq, not_lt.mpr hsize]

theorem C10_default_quality_fallback_witness :
    settings_command {} = "medium" ∧
    (handle_video [] {} 7 (some ⟨2, "b.mp4", 1000, "video/mp4"⟩)).1 =
      .promptQuality 1000 "medium" :=
  C10_default_quality_fallback [] {} 7 ⟨2, "b.mp4", 1000, "video/mp4"⟩
    rfl rfl (by decide)

/-- C6 — Best-effort cancellation during encode: when the cancellation
flag turns true while the encode call is in flight, the encode still runs
to completion (it is never aborted); the job then takes the cancellation
branch instead of the Uploading path, the produced output file is deleted
rather than delivered, and the registry entry is removed. -/
theorem C6_cancel_during_encode (env : Env) (tasks : List (Nat × TaskInfo))
    (user_id : Nat) (t : TaskInfo) (p : Preset)
    (hl : lookupTask tasks user_id = some t)
    (h1 : env.edit_downloading_ok = true) (h2 : env.get_file_ok = true)
    (h3 : env.download_ok = true)
    (hc0 : t.canceled = false) (hcd : env.cancel_during_download = false)
    (hp : COMPRESSION_PRESETS t.quality = some p)
    (h4 : env.edit_compressing_ok = true) (h5 : env.encode_ok = true)
    (hce : env.cancel_during_encode = true)
    (h6 : env.edit_canceled_ok = true) :
    (process_compression env tasks user_id).encode_performed = true ∧
    (process_compression env tasks user_id).outcome = .canceled ∧
    (process_compression env tasks user_id).video_delivered = false ∧
    (process_compression env tasks user_id).output_exists = false ∧
    (process_compression env tasks user_id).input_exists = false ∧
    lookupTask (process_compression env tasks user_id).tasks user_id = none := by
  refine ⟨?_, ?_, ?_, ?_, ?_, ?_⟩ <;>
    simp [process_compression, run_body, hl, h1, h2, h3, hc0, hcd, hp, h4,
      h5, hce, h6, os_remove_if_exists, lookupTask_eraseTask]

theorem C6_cancel_during_encode_witness :
    (process_compression { envAllOk with cancel_during_encode := true }
      [(7, ⟨⟨1, "a.mp4", 1000, "video/mp4"⟩, "medium", 10, 100, false⟩)]
      7).encode_performed = true ∧
    (process_compression { envAllOk with cancel_during_encode := true }
      [(7, ⟨⟨1, "a.mp4", 1000, "video/mp4"⟩, "medium", 10, 100, false⟩)]
      7).outcome = .canceled ∧
    (process_compression { envAllOk with cancel_during_encode := true }
      [(7, ⟨⟨1, "a.mp4", 1000, "video/mp4"⟩, "medium", 10, 100, false⟩)]
      7).video_delivered = false ∧
    (process_compression { envAllOk with cancel_during_encode := true }
      [(7, ⟨⟨1, "a.mp4", 1000, "video/mp4"⟩, "medium", 10, 100, false⟩)]
      7).output_exists = false ∧
    (process_compression { envAllOk with cancel_during_encode := true }
      [(7, ⟨⟨1, "a.mp4", 1000, "video/mp4"⟩, "medium", 10, 100, false⟩)]
      7).input_exists = false ∧
    lookupTask (process_compression { envAllOk with cancel_during_encode := true }
      [(7, ⟨⟨1, "a.mp4", 1000, "video/mp4"⟩, "medium", 10, 100, false⟩)]
      7).tasks 7 = none :=
  C6_cancel_during_encode _ _ 7
    ⟨⟨1, "a.mp4", 1000, "video/mp4"⟩, "medium", 10, 100, false⟩
    ⟨23, "medium", "Balanced file size and quality"⟩
    rfl rfl rfl rfl rfl rfl (by decide) rfl rfl rfl rfl

/-- C3 — counterexample: with the cancellation flag already set when the
pipeline is about to enter the Downloading stage (the stored task has
`canceled = true` before the run begins), the download is still performed;
the claim that no fetch of the video file happens is false on the code,
which only checks the flag after `download_to_drive` returns. -/
theorem C3_counterexample :
    (process_compression envAllOk
      [(7, ⟨⟨1, "a.mp4", 1000, "video/mp4"⟩, "medium", 10, 100, true⟩)]
      7).download_performed = true ∧
    (process_compression envAllOk
      [(7, ⟨⟨1, "a.mp4", 1000, "video/mp4"⟩, "medium", 10, 100, true⟩)]
      7).outcome = .canceled := by decide

/-- C3 (amended) — the cancellation check runs only after the download
completes: when the flag is set before the pipeline starts or while it
downloads, the download is still performed, after which the job goes
directly to Canceled — no encode call is made, the input file is deleted,
no output file exists, and the registry entry is removed. -/
theorem C3_cancel_before_encode (env : Env) (tasks : List (Nat × TaskInfo))
    (user_id : Nat) (t : TaskInfo)
    (hl : lookupTask tasks user_id = some t)
    (h1 : env.edit_downloading_ok = true) (h2 : env.get_file_ok = true)
    (h3 : env.download_ok = true)
    (hc : t.canceled = true ∨ env.cancel_during_download = true)
    (h6 : env.edit_canceled_ok = true) :
    (process_compression env tasks user_id).outcome = .canceled ∧
    (process_compression env tasks user_id).download_performed = true ∧
    (process_compression env tasks user_id).encode_performed = false ∧
    (process_compression env tasks user_id).input_exists = false ∧
    (process_compression env tasks user_id).output_exists = false ∧
    lookupTask (process_compression env tasks user_id).tasks user_id = none := by
  rcases hc with hc | hc <;>
    (refine ⟨?_, ?_, ?_, ?_, ?_, ?_⟩ <;>
      simp [process_compression, run_body, hl, h1, h2, h3, hc, h6,
        os_remove_if_exists, lookupTask_eraseTask])

theorem C3_cancel_before_encode_witness :
    (process_compression envAllOk
      [(7, ⟨⟨1, "a.mp4", 1000, "video/mp4"⟩, "medium", 10, 100, true⟩)]
      7).outcome = .canceled ∧
    (process_compression envAllOk
      [(7, ⟨⟨1, "a.mp4", 1000, "video/mp4"⟩, "medium", 10, 100, true⟩)]
      7).download_performed = true ∧
    (process_compression envAllOk
      [(7, ⟨⟨1, "a.mp4", 1000, "video/mp4"⟩, "medium", 10, 100, true⟩)]
      7).encode_performed = false ∧
    (process_compression envAllOk
      [(7, ⟨⟨1, "a.mp4", 1000, "video/mp4"⟩, "medium", 10, 100, true⟩)]
      7).input_exists = false ∧
    (process_compression envAllOk
      [(7, ⟨⟨1, "a.mp4", 1000, "video/mp4"⟩, "medium", 10, 100, true⟩)]
      7).output_exists = false ∧
    lookupTask (process_compression envAllOk
      [(7, ⟨⟨1, "a.mp4", 1000, "video/mp4"⟩, "medium", 10, 100, true⟩)]
      7).tasks 7 = none :=
  C3_cancel_before_encode _ _ 7
    ⟨⟨1, "a.mp4", 1000, "video/mp4"⟩, "medium", 10, 100, true⟩
    rfl rfl rfl rfl (Or.inl rfl) rfl

/-- C4 — counterexample: in a run where every external call would succeed,
making only the first progress-reporting call (the Downloading status edit
on line 297) raise turns the outcome from Completed into Failed and stops
the pipeline before the download — a reporting failure does abort the
pipeline and does change the job's terminal outcome, contrary to the
claim. -/
theorem C4_counterexample :
    (process_compression envAllOk
      [(7, ⟨⟨1, "a.mp4", 1000, "video/mp4"⟩, "medium", 10, 100, false⟩)]
      7).outcome = .completed ∧
    (process_compression { envAllOk with edit_downloading_ok := false }
      [(7, ⟨⟨1, "a.mp4", 1000, "video/mp4"⟩, "medium", 10, 100, false⟩)]
      7).outcome = .failed ∧
    (process_compression { envAllOk with edit_downloading_ok := false }
      [(7, ⟨⟨1, "a.mp4", 1000, "video/mp4"⟩, "medium", 10, 100, false⟩)]
      7).download_performed = false ∧
    (process_compression { envAllOk with edit_downloading_ok := false }
      [(7, ⟨⟨1, "a.mp4", 1000, "video/mp4"⟩, "medium", 10, 100, false⟩)]
      7).video_delivered = false := by decide

/-- C4 (amended) — a failure of a mid-pipeline progress-reporting call is
not isolated: when the Downloading status edit raises, the generic
exception handler takes over, the job ends Failed without the download
having run, an error report is attempted, and cleanup still removes both
paths and the registry entry.  Only the error-report edit inside the
exception handler is isolated: its own success or failure is swallowed and
cannot change any observable of the run. -/
theorem C4_reporting_failure_aborts (env : Env)
    (tasks : List (Nat × TaskInfo)) (user_id : Nat) (t : TaskInfo)
    (hl : lookupTask tasks user_id = some t)
    (h1 : env.edit_downloading_ok = false) :
    (process_compression env tasks user_id).outcome = .failed ∧
    (process_compression env tasks user_id).download_performed = false ∧
    (process_compression env tasks user_id).error_report_attempted = true ∧
    (process_compression env tasks user_id).input_exists = false ∧
    (process_compression env tasks user_id).output_exists = false ∧
    lookupTask (process_compression env tasks user_id).tasks user_id = none ∧
    ∀ b : Bool,
      process_compression { env with edit_error_ok := b } tasks user_id =
        process_compression env tasks user_id := by
  refine ⟨?_, ?_, ?_, ?_, ?_, ?_, ?_⟩
  · simp [process_compression, run_body, hl, h1]
  · simp [process_compression, run_body, hl, h1]
  · simp [process_compression, run_body, hl, h1]
  · simp [process_compression, run_body, hl, h1, os_remove_if_exists]
  · simp [process_compression, run_body, hl, h1, os_remove_if_exists]
  · simp [process_compression, run_body, hl, h1, lookupTask_eraseTask]
  · intro b
    obtain ⟨e1, e2, e3, e4, e5, e6, e7, e8, e9, e10, e11, e12, e13, os⟩ := env
    rfl

theorem C4_reporting_failure_aborts_witness :
    (process_compression { envAllOk with edit_downloading_ok := false }
      [(7, ⟨⟨1, "a.mp4", 1000, "video/mp4"⟩, "medium", 10, 100, false⟩)]
      7).outcome = .failed ∧
    (process_compression { envAllOk with edit_downloading_ok := false }
      [(7, ⟨⟨1, "a.mp4", 1000, "video/mp4"⟩, "medium", 10, 100, false⟩)]
      7).download_performed = false ∧
    (process_compression { envAllOk with edit_downloading_ok := false }
      [(7, ⟨⟨1, "a.mp4", 1000, "video/mp4"⟩, "medium", 10, 100, false⟩)]
      7).error_report_attempted = true ∧
    (process_compression { envAllOk with edit_downloading_ok := false }
      [(7, ⟨⟨1, "a.mp4", 1000, "video/mp4"⟩, "medium", 10, 100, false⟩)]
      7).input_exists = false ∧
    (process_compression { envAllOk with edit_downloading_ok := false }
      [(7, ⟨⟨1, "a.mp4", 1000, "video/mp4"⟩, "medium", 10, 100, false⟩)]
      7).output_exists = false ∧
    lookupTask (process_compression { envAllOk with edit_downloading_ok := false }
      [(7, ⟨⟨1, "a.mp4", 1000, "video/mp4"⟩, "medium", 10, 100, false⟩)]
      7).tasks 7 = none ∧
    ∀ b : Bool,
      process_compression
        { { envAllOk with edit_downloading_ok := false } with
          edit_error_ok := b }
        [(7, ⟨⟨1, "a.mp4", 1000, "video/mp4"⟩, "medium", 10, 100, false⟩)] 7 =
      process_compression { envAllOk with edit_downloading_ok := false }
        [(7, ⟨⟨1, "a.mp4", 1000, "video/mp4"⟩, "medium", 10, 100, false⟩)] 7 :=
  C4_reporting_failure_aborts _ _ 7
    ⟨⟨1, "a.mp4", 1000, "video/mp4"⟩, "medium", 10, 100, false⟩ rfl rfl

/-- C5 — counterexample: "ultra" is not a key of the preset table, yet the
quality callback accepts it, answers with the started reply instead of a
synchronous error, and stores a task entry for the user in the registry —
an unknown preset key does leave an entry and is not surfaced before the
Job is created. -/
theorem C5_counterexample :
    COMPRESSION_PRESETS "ultra" = none ∧
    (handle_compression_callback []
      { pending_video := some ⟨2, "b.mp4", 1000, "video/mp4"⟩ }
      7 "ultra" 10 100).1 = .started "ultra" ∧
    lookupTask (handle_compression_callback []
      { pending_video := some ⟨2, "b.mp4", 1000, "video/mp4"⟩ }
      7 "ultra" 10 100).2.1 7 =
      some ⟨⟨2, "b.mp4", 1000, "video/mp4"⟩, "ultra", 10, 100, false⟩ := by
  decide

/-- C5 (amended) — the two admission errors the video handler knows,
already-active and too-large, are surfaced synchronously before any Job is
created and mutate nothing; an unknown preset key, by contrast, is not
validated at admission: the quality callback still creates the registry
entry, and the `KeyError` only surfaces asynchronously inside the
pipeline, which ends Failed without an encode call and with the entry
removed again by cleanup. -/
theorem C5_admission_errors (tasks : List (Nat × TaskInfo)) (ud : UserData)
    (user_id : Nat) (v : VideoInfo) (t : TaskInfo) (env : Env)
    (tasks2 : List (Nat × TaskInfo)) (t2 : TaskInfo) (user_id2 : Nat) :
    ((lookupTask tasks user_id).isSome →
      handle_video tasks ud user_id (some v) = (.alreadyActive, tasks, ud)) ∧
    (lookupTask tasks user_id = none →
      (if ud.is_premium then PREMIUM_MAX_FILE_SIZE else MAX_FILE_SIZE) <
        v.file_size →
      handle_video tasks ud user_id (some v) =
        (.tooLarge (if ud.is_premium then PREMIUM_MAX_FILE_SIZE
          else MAX_FILE_SIZE) ud.is_premium, tasks, ud)) ∧
    (ud.pending_video = some v →
      (handle_compression_callback tasks ud user_id t.quality
        t.status_message_id t.start_time).1 = .started t.quality ∧
      (lookupTask (handle_compression_callback tasks ud user_id t.quality
        t.status_message_id t.start_time).2.1 user_id).isSome) ∧
    (lookupTask tasks2 user_id2 = some t2 →
      env.edit_downloading_ok = true → env.get_file_ok = true →
      env.download_ok = true → t2.canceled = false →
      env.cancel_during_download = false →
      COMPRESSION_PRESETS t2.quality = none →
      (process_compression env tasks2 user_id2).outcome = .failed ∧
      (process_compression env tasks2 user_id2).encode_performed = false ∧
      (process_compression env tasks2 user_id2).input_exists = false ∧
      (process_compression env tasks2 user_id2).output_exists = false ∧
      lookupTask (process_compression env tasks2 user_id2).tasks user_id2 =
        none) := by
  refine ⟨?_, ?_, ?_, ?_⟩
  · intro h
    simp [handle_video, h]
  · intro h hs
    simp [handle_video, h, hs]
  · intro h
    simp [handle_compression_callback, h, lookupTask_insertTask]
  · intro hl h1 h2 h3 hc0 hcd hp
    refine ⟨?_, ?_, ?_, ?_, ?_⟩ <;>
      simp [process_compression, run_body, hl, h1, h2, h3, hc0, hcd, hp,
        os_remove_if_exists, lookupTask_eraseTask]

theorem C5_admission_errors_witness :
    handle_video [(7, ⟨⟨2, "b.mp4", 1000, "video/mp4"⟩, "ultra", 10, 100, false⟩)]
        { pending_video := some ⟨2, "b.mp4", 1000, "video/mp4"⟩ } 7
        (some ⟨2, "b.mp4", 1000, "video/mp4"⟩) =
      (.alreadyActive,
        [(7, ⟨⟨2, "b.mp4", 1000, "video/mp4"⟩, "ultra", 10, 100, false⟩)],
        { pending_video := some ⟨2, "b.mp4", 1000, "video/mp4"⟩ }) ∧
    handle_video [] {} 9 (some ⟨1, "a.mp4", 60 * 1024 * 1024, "video/mp4"⟩) =
      (.tooLarge MAX_FILE_SIZE false, [], {}) ∧
    (handle_compression_callback []
        { pending_video := some ⟨2, "b.mp4", 1000, "video/mp4"⟩ }
        7 "ultra" 10 100).1 = .started "ultra" ∧
    (process_compression envAllOk
      [(7, ⟨⟨2, "b.mp4", 1000, "video/mp4"⟩, "ultra", 10, 100, false⟩)]
      7).outcome = .failed ∧
    (process_compression envAllOk
      [(7, ⟨⟨2, "b.mp4", 1000, "video/mp4"⟩, "ultra", 10, 100, false⟩)]
      7).encode_performed = false ∧
    lookupTask (process_compression envAllOk
      [(7, ⟨⟨2, "b.mp4", 1000, "video/mp4"⟩, "ultra", 10, 100, false⟩)]
      7).tasks 7 = none := by
  have h := C5_admission_errors
    [(7, ⟨⟨2, "b.mp4", 1000, "video/mp4"⟩, "ultra", 10, 100, false⟩)]
    { pending_video := some ⟨2, "b.mp4", 1000, "video/mp4"⟩ } 7
    ⟨2, "b.mp4", 1000, "video/mp4"⟩
    ⟨⟨2, "b.mp4", 1000, "video/mp4"⟩, "ultra", 10, 100, false⟩ envAllOk
    [(7, ⟨⟨2, "b.mp4", 1000, "video/mp4"⟩, "ultra", 10, 100, false⟩)]
    ⟨⟨2, "b.mp4", 1000, "video/mp4"⟩, "ultra", 10, 100, false⟩ 7
  have h2 := C5_admission_errors [] ({} : UserData) 9
    ⟨1, "a.mp4", 60 * 1024 * 1024, "video/mp4"⟩
    ⟨⟨1, "a.mp4", 60 * 1024 * 1024, "video/mp4"⟩, "low", 0, 0, false⟩
    envAllOk [] ⟨⟨1, "a.mp4", 60 * 1024 * 1024, "video/mp4"⟩, "low", 0, 0, false⟩ 9
  refine ⟨?_, ?_, ?_, ?_, ?_, ?_⟩
  · exact h.1 (by decide)
  · exact h2.2.1 rfl (by decide)
  · exact (h.2.2.1 rfl).1
  · exact (h.2.2.2 rfl rfl rfl rfl rfl rfl (by decide)).1
  · exact (h.2.2.2 rfl rfl rfl rfl rfl rfl (by decide)).2.1
  · exact (h.2.2.2 rfl rfl rfl rfl rfl rfl (by decide)).2.2.2.2

/-- C1 — the code violates single-flight at the job-creation point.
Traced on a concrete run: user 7 sends a video (the reference is stored),
the first quality press admits job 1 into the registry, and while job 1 is
still active and non-terminal, a second *video* is indeed rejected with
the already-active reply, but a second *quality press* — possible because
the stored reference is never cleared — is not rejected: it answers
started, overwrites job 1's registry entry with a fresh task, and spawns a
second pipeline.  The first job's registry state is therefore not left
unchanged and the already-active response is never produced on this
submission path. -/
theorem C1_single_flight_violated :
    handle_video [] {} 7 (some ⟨1, "a.mp4", 1000, "video/mp4"⟩) =
      (.promptQuality 1000 "medium", [],
        { pending_video := some ⟨1, "a.mp4", 1000, "video/mp4"⟩ }) ∧
    handle_compression_callback []
        { pending_video := some ⟨1, "a.mp4", 1000, "video/mp4"⟩ }
        7 "medium" 10 100 =
      (.started "medium",
        [(7, ⟨⟨1, "a.mp4", 1000, "video/mp4"⟩, "medium", 10, 100, false⟩)],
        { pending_video := some ⟨1, "a.mp4", 1000, "video/mp4"⟩ }) ∧
    (handle_video
        [(7, ⟨⟨1, "a.mp4", 1000, "video/mp4"⟩, "medium", 10, 100, false⟩)]
        { pending_video := some ⟨1, "a.mp4", 1000, "video/mp4"⟩ } 7
        (some ⟨1, "a.mp4", 1000, "video/mp4"⟩)).1 = .alreadyActive ∧
    handle_compression_callback
        [(7, ⟨⟨1, "a.mp4", 1000, "video/mp4"⟩, "medium", 10, 100, false⟩)]
        { pending_video := some ⟨1, "a.mp4", 1000, "video/mp4"⟩ }
        7 "high" 11 200 =
      (.started "high",
        [(7, ⟨⟨1, "a.mp4", 1000, "video/mp4"⟩, "high", 11, 200, false⟩)],
        { pending_video := some ⟨1, "a.mp4", 1000, "video/mp4"⟩ }) ∧
    lookupTask
        [(7, ⟨⟨1, "a.mp4", 1000, "video/mp4"⟩, "high", 11, 200, false⟩)] 7 ≠
      some ⟨⟨1, "a.mp4", 1000, "video/mp4"⟩, "medium", 10, 100, false⟩ := by
  decide
